import Mathlib

/-!
Verification of the Rust socket.io chat client (`src/client_rust/src/main.rs`)
against its natural-language specification.

The client is shallowly embedded: each event-handler closure becomes a pure
Lean function from the (already JSON-parsed) payload to the list of lines it
prints; the interactive stdin loop of `main` becomes a recursive function from
the list of operator input lines (plus an oracle telling which `emit` calls
succeed) to the trace of transport actions it performs.
-/

set_option autoImplicit false

namespace ChatClient

/-- A JSON value, as produced by `serde_json::from_str` into `serde_json::Value`.
Numbers are modelled as integers (the payload fields the client reads are all
integral); objects are association lists whose lookup takes the first matching
key, standing for the parsed map. -/
inductive Json where
  | null
  | bool (b : Bool)
  | num (n : Int)
  | str (s : String)
  | arr (xs : List Json)
  | obj (fields : List (String × Json))

/-- `Value::get(key)` on an object, `None` on any other value. -/
def Json.get : Json → String → Option Json
  | .obj fs, k => fs.lookup k
  | _, _ => none

/-- `Value::as_str`. -/
def Json.as_str : Json → Option String
  | .str s => some s
  | _ => none

/-- `Value::as_i64`: an integral number that fits in a signed 64-bit integer. -/
def Json.as_i64 : Json → Option Int
  | .num n => if -(2 ^ 63) ≤ n ∧ n < 2 ^ 63 then some n else none
  | _ => none

/-- `Value::as_array`. -/
def Json.as_array : Json → Option (List Json)
  | .arr xs => some xs
  | _ => none

/-! ### The chrono time model

`main.rs` renders timestamps with
`chrono::NaiveDateTime::from_timestamp_opt(at / 1000, 0)` and then reads
`.time().hour()` and `.time().minute()`.  `from_timestamp_opt` interprets the
seconds value on the UTC timeline (it applies no timezone) and returns `None`
when the resulting date falls outside chrono's representable year range
`-262144 ..= 262143` (`i32::MIN >> 13 ..= i32::MAX >> 13`).  Only the
time-of-day of the resulting value is consumed, so the model returns the
(hour, minute) pair. -/

/-- Days since 1970-01-01 of the civil date `y-m-d` (proleptic Gregorian),
used to express chrono's representable range as a bound on epoch seconds. -/
def daysFromCivil (y m d : Int) : Int :=
  let y2 : Int := if m ≤ 2 then y - 1 else y
  let era : Int := Int.ediv y2 400
  let yoe : Int := y2 - era * 400
  let mp : Int := Int.emod (m + 9) 12
  let doy : Int := Int.ediv (153 * mp + 2) 5 + d - 1
  let doe : Int := yoe * 365 + Int.ediv yoe 4 - Int.ediv yoe 100 + doy
  era * 146097 + doe - 719468

/-- Largest epoch-second value chrono can represent (23:59:59 on the last day
of year 262143). -/
def chronoMaxSecs : Int := daysFromCivil 262143 12 31 * 86400 + 86399

/-- Smallest epoch-second value chrono can represent (00:00:00 on the first
day of year -262144). -/
def chronoMinSecs : Int := daysFromCivil (-262144) 1 1 * 86400

/-- Hour and minute of the time-of-day of an epoch-second value on the UTC
timeline, exactly as chrono derives them (`rem_euclid 86400`, then seconds
from midnight). -/
def chronoTimeOfDay (secs : Int) : Nat × Nat :=
  let sod : Nat := (Int.emod secs 86400).toNat
  (sod / 3600, sod % 3600 / 60)

/-- `NaiveDateTime::from_timestamp_opt(secs, 0)`, restricted to the hour and
minute the client consumes: `none` when `secs` is outside the representable
range. -/
def fromTimestampOpt (secs : Int) : Option (Nat × Nat) :=
  if chronoMinSecs ≤ secs ∧ secs ≤ chronoMaxSecs then some (chronoTimeOfDay secs) else none

/-- Rust's `format!("{:02}", n)` for the small numbers rendered here. -/
def pad2 (n : Nat) : String :=
  if n < 10 then "0" ++ toString n else toString n

/-- The timestamp string computed by the `chat:public` closure
(`main.rs` lines 104-111): positive `at` is truncated to whole seconds with
Rust's `/` (truncating division) and rendered as zero-padded hour:minute;
when `from_timestamp_opt` fails the code falls back to
`from_timestamp_opt(0, 0).unwrap()`, the epoch, whose time-of-day is 00:00;
non-positive `at` renders the placeholder. -/
def chatTimestamp (atMs : Int) : String :=
  if 0 < atMs then
    let hm := (fromTimestampOpt (Int.tdiv atMs 1000)).getD (chronoTimeOfDay 0)
    pad2 hm.1 ++ ":" ++ pad2 hm.2
  else
    "--:--"

/-! ### Inbound event handlers

Each `.on(name, closure)` registration of `main.rs` becomes a function from
`Option Json` — the result of `parse_payload_to_json` on the delivered
payload, `none` meaning the payload was not valid JSON — to the list of lines
the closure prints. -/

/-- The `welcome` payload shape deserialized by `serde_json::from_value`
into `struct WelcomePayload`. -/
structure WelcomePayload where
  username : String
  connectedUsers : List String
  deriving DecidableEq

/-- `serde` deserialization of a list of JSON strings: fails if any element
is not a string. -/
def asStringList : List Json → Option (List String)
  | [] => some []
  | x :: xs =>
    match x with
    | .str s => (asStringList xs).map (fun l => s :: l)
    | _ => none

/-- `serde_json::from_value::<WelcomePayload>`: requires a `username` string
field and a `connectedUsers` array whose elements are all strings; unknown
fields are ignored. -/
def parseWelcome (v : Json) : Option WelcomePayload :=
  match v.get "username", v.get "connectedUsers" with
  | some (.str u), some (.arr xs) => (asStringList xs).map (fun l => ⟨u, l⟩)
  | _, _ => none

/-- The `connect` closure (`main.rs` lines 75-77): prints a notice, performs
no emission and no state change. -/
def connectHandler (_p : Option Json) : List String :=
  ["→ Conexión TCP/WS establecida. Enviando handshake…"]

/-- The `welcome` closure (`main.rs` lines 79-97). -/
def welcomeHandler : Option Json → List String
  | none => ["(welcome) payload no JSON"]
  | some v =>
    match parseWelcome v with
    | some w =>
      ["✅ Conexión exitosa como \"" ++ w.username ++ "\". Usuarios conectados: "
        ++ (if w.connectedUsers.isEmpty then "—" else String.intercalate ", " w.connectedUsers)]
    | none => ["(welcome) payload inesperado"]

/-- The `chat:public` closure (`main.rs` lines 99-114): missing or non-string
`username` defaults to the placeholder, missing or non-string `text` to the
empty string, missing or non-integral `at` to 0; a non-JSON payload prints
nothing. -/
def chatPublicHandler : Option Json → List String
  | none => []
  | some v =>
    let user := ((v.get "username").bind Json.as_str).getD "¿?"
    let text := ((v.get "text").bind Json.as_str).getD ""
    let atMs := ((v.get "at").bind Json.as_i64).getD 0
    ["[" ++ chatTimestamp atMs ++ "] " ++ user ++ ": " ++ text]

/-- The `users:list` closure (`main.rs` lines 116-128): when `users` is an
array, its string elements are collected (`filter_map` silently drops
non-string elements) and rendered; when `users` is missing or not an array an
unexpected-payload notice is printed; a non-JSON payload prints nothing. -/
def usersListHandler : Option Json → List String
  | none => []
  | some v =>
    match (v.get "users").bind Json.as_array with
    | some arr =>
      let users := arr.filterMap Json.as_str
      ["👥 Conectados: " ++ (if users.isEmpty then "—" else String.intercalate ", " users)]
    | none => ["(users:list) payload inesperado"]

/-! ### The reported session state

The client stores no roster or connection-state variable: the spec's abstract
`Session` fields are observable only through what the handlers render.  They
are therefore formalised as ghost state derived from the handlers: the roster
is the user list most recently rendered by the `welcome` or `users:list`
closure (exactly the list those closures print), and the connected flag
records whether a well-formed `welcome` confirmation has been rendered. -/

/-- The inbound events whose handlers can report session state, each carrying
the JSON-parse result of its payload. -/
inductive InEvent where
  | connect (p : Option Json)
  | welcome (p : Option Json)
  | chatPublic (p : Option Json)
  | usersList (p : Option Json)

/-- One-event update of the reported roster, following the source handlers:
a parsed `welcome` renders `connectedUsers`, a `users:list` whose `users`
field is an array renders that array's string elements; every other event
leaves the last report unchanged. -/
def rosterStep (r : Option (List String)) : InEvent → Option (List String)
  | .welcome (some v) =>
    match parseWelcome v with
    | some w => some w.connectedUsers
    | none => r
  | .usersList (some v) =>
    match (v.get "users").bind Json.as_array with
    | some arr => some (arr.filterMap Json.as_str)
    | none => r
  | _ => r

/-- The roster the client last reported after handling `es` in order
(`none` while no roster has ever been rendered). -/
def rosterAfter (es : List InEvent) : Option (List String) :=
  es.foldl rosterStep none

/-- One-event update of the reported connection state: only a `welcome`
payload that deserializes into `WelcomePayload` renders the success
confirmation. -/
def connectedStep (b : Bool) : InEvent → Bool
  | .welcome (some v) => b || (parseWelcome v).isSome
  | _ => b

/-- Whether the client has reported a successful connection after handling
`es` in order. -/
def connectedAfter (es : List InEvent) : Bool :=
  es.foldl connectedStep false

/-! ### Operator input: trimming and the username validator -/

/-- Rust `char::is_whitespace`: membership in the Unicode `White_Space`
set. -/
def isRustWhitespace (c : Char) : Bool :=
  [0x09, 0x0A, 0x0B, 0x0C, 0x0D, 0x20, 0x85, 0xA0, 0x1680,
   0x2000, 0x2001, 0x2002, 0x2003, 0x2004, 0x2005, 0x2006, 0x2007,
   0x2008, 0x2009, 0x200A, 0x2028, 0x2029, 0x202F, 0x205F, 0x3000].contains c.toNat

/-- Rust `str::trim`: strip leading and trailing whitespace. -/
def rustTrim (s : String) : String :=
  ⟨((s.data.dropWhile isRustWhitespace).reverse.dropWhile isRustWhitespace).reverse⟩

/-- Rust `char::is_ascii_alphanumeric`. -/
def isAsciiAlphanumeric (c : Char) : Bool :=
  (65 ≤ c.toNat && c.toNat ≤ 90) || (97 ≤ c.toNat && c.toNat ≤ 122)
    || (48 ≤ c.toNat && c.toNat ≤ 57)

/-- A character the username check admits (`main.rs` line 58). -/
def allowedChar (c : Char) : Bool :=
  isAsciiAlphanumeric c || c = '_' || c = '-'

/-- UTF-8 byte count of a single character (what Rust `String::len` sums). -/
def charUtf8Size (n : Nat) : Nat :=
  if n < 0x80 then 1 else if n < 0x800 then 2 else if n < 0x10000 then 3 else 4

/-- Rust `String::len`: the UTF-8 byte length. -/
def rustLen (s : String) : Nat :=
  (s.data.map (fun c => charUtf8Size c.toNat)).sum

/-- The username acceptance check of `main.rs` lines 54-58: non-empty,
byte length between 3 and 20, all characters ASCII alphanumeric, underscore
or hyphen. -/
def usernameOk (u : String) : Bool :=
  !u.data.isEmpty && decide (3 ≤ rustLen u) && decide (rustLen u ≤ 20)
    && u.data.all allowedChar

/-- The username prompt loop of `main.rs` lines 52-64 over a list of operator
answers: `read_line` trims each answer (the prompt has no default, so an
all-whitespace answer yields the empty string); the loop breaks on the first
accepted value and re-prompts otherwise. -/
def usernameLoop : List String → Option String
  | [] => none
  | s :: rest =>
    let u := rustTrim s
    if usernameOk u then some u else usernameLoop rest

/-! ### The interactive loop and the transport trace

`main`'s behaviour after `ClientBuilder::connect` succeeds is a function of
the operator's input lines and of which transport emissions succeed.  The
trace records every `socket.emit` call (attempted ones included — a failing
`emit` still happened before its error propagates through `?`) and every
`socket.disconnect` call. -/

/-- A call the client makes on the transport handle. -/
inductive Action where
  | emit (event : String) (payload : Json)
  | disconnect

/-- Whether an action is the disconnect call. -/
def Action.isDisconnect : Action → Bool
  | .disconnect => true
  | _ => false

/-- Whether an action is a `command:quit` emission. -/
def Action.isQuitEmit : Action → Bool
  | .emit e _ => e == "command:quit"
  | _ => false

/-- Number of disconnect calls in a trace. -/
def countDisconnect (as : List Action) : Nat :=
  (as.filter Action.isDisconnect).length

/-- Number of `command:quit` emissions in a trace. -/
def countQuitEmit (as : List Action) : Nat :=
  (as.filter Action.isQuitEmit).length

/-- How the stdin loop of `main.rs` lines 170-190 ends. -/
inductive LoopExit where
  | quit
  | emitErr
  | inputEnded
  deriving DecidableEq

/-- The stdin loop (`main.rs` lines 170-190).  `emitOk k` tells whether the
`k`-th emission of the whole session succeeds (the hello emission is number
0, so the loop starts at counter 1).  Each line is trimmed; empty lines loop
again; the literal `/listar` emits `command:list {}`, the literal `/quitar`
emits `command:quit {}` and breaks, anything else emits `chat:public` with
the trimmed text; a failed emission ends the loop through `?` with the
attempted emission still recorded.  `inputEnded` marks exhaustion of the
modelled input, where the real program would block on stdin. -/
def runLoop (emitOk : Nat → Bool) : Nat → List String → List Action × LoopExit
  | _, [] => ([], .inputEnded)
  | k, line :: rest =>
    let txt := rustTrim line
    if txt = "" then
      runLoop emitOk k rest
    else if txt = "/listar" then
      let act := Action.emit "command:list" (.obj [])
      if emitOk k then
        let r := runLoop emitOk (k + 1) rest
        (act :: r.1, r.2)
      else ([act], .emitErr)
    else if txt = "/quitar" then
      let act := Action.emit "command:quit" (.obj [])
      if emitOk k then ([act], .quit) else ([act], .emitErr)
    else
      let act := Action.emit "chat:public" (.obj [("text", .str txt)])
      if emitOk k then
        let r := runLoop emitOk (k + 1) rest
        (act :: r.1, r.2)
      else ([act], .emitErr)

/-- How `main` ends. -/
inductive MainExit where
  | okExit
  | errExit
  | blocked
  deriving DecidableEq

/-- `main` from the point `ClientBuilder::connect` has succeeded
(`main.rs` lines 161-197): emit `hello {username}` (a failure propagates
through `?` before `connected_ok` is set); set `connected_ok := true`; run
the stdin loop; after a quit break, disconnect when `connected_ok` is set
(it always is on that path) and return `Ok`; a loop emission failure
propagates out of `main` before the cleanup block runs. -/
def mainAfterConnect (username : String) (emitOk : Nat → Bool) (inputs : List String) :
    List Action × MainExit :=
  let hello := Action.emit "hello" (.obj [("username", .str username)])
  if emitOk 0 then
    let connectedOk := true
    let r := runLoop emitOk 1 inputs
    match r.2 with
    | .quit => (hello :: r.1 ++ (if connectedOk then [.disconnect] else []), .okExit)
    | .emitErr => (hello :: r.1, .errExit)
    | .inputEnded => (hello :: r.1, .blocked)
  else ([hello], .errExit)

/-! ### Spec-side definitions for refinement comparisons -/

/-- The hour:minute of `atMs` milliseconds since the epoch on the UTC
timeline, truncating to whole seconds — the amended reading of the spec's
timestamp rule. -/
def utcHHMM (atMs : Int) : String :=
  let sod : Nat := (Int.emod (Int.tdiv atMs 1000) 86400).toNat
  pad2 (sod / 3600) ++ ":" ++ pad2 (sod % 3600 / 60)

/-- Modelled from the spec: "if sentAtEpochMillis > 0, convert to hour:minute
in local wall-clock time, zero-padded two digits each, derived by truncating
to whole seconds; if absent or ≤ 0, render placeholder".  Local wall-clock
time is UTC shifted by the environment's offset from UTC, here a parameter in
minutes.  Used only to compare the spec's rule with the code's rendering. -/
def specLocalHHMM (offsetMinutes atMs : Int) : String :=
  if 0 < atMs then
    let sod : Nat := (Int.emod (Int.tdiv atMs 1000 + offsetMinutes * 60) 86400).toNat
    pad2 (sod / 3600) ++ ":" ++ pad2 (sod % 3600 / 60)
  else
    "--:--"

/-! ### Helper lemmas -/

@[simp] theorem countDisconnect_nil : countDisconnect [] = 0 := rfl

@[simp] theorem countDisconnect_cons_emit (e : String) (p : Json) (as : List Action) :
    countDisconnect (.emit e p :: as) = countDisconnect as := by
  simp [countDisconnect, Action.isDisconnect]

@[simp] theorem countDisconnect_cons_disc (as : List Action) :
    countDisconnect (.disconnect :: as) = countDisconnect as + 1 := by
  simp [countDisconnect, Action.isDisconnect]

@[simp] theorem countDisconnect_append (as bs : List Action) :
    countDisconnect (as ++ bs) = countDisconnect as + countDisconnect bs := by
  simp [countDisconnect, List.filter_append]

@[simp] theorem countQuitEmit_nil : countQuitEmit [] = 0 := rfl

@[simp] theorem countQuitEmit_cons_emit (e : String) (p : Json) (as : List Action) :
    countQuitEmit (.emit e p :: as)
      = (if e = "command:quit" then 1 else 0) + countQuitEmit as := by
  rcases eq_or_ne e "command:quit" with h | h
  · subst h
    simp [countQuitEmit, Action.isQuitEmit, List.filter_cons, Nat.add_comm]
  · simp [countQuitEmit, Action.isQuitEmit, List.filter_cons, h, beq_iff_eq]

@[simp] theorem countQuitEmit_cons_disc (as : List Action) :
    countQuitEmit (.disconnect :: as) = countQuitEmit as := by
  simp [countQuitEmit, Action.isQuitEmit]

@[simp] theorem countQuitEmit_append (as bs : List Action) :
    countQuitEmit (as ++ bs) = countQuitEmit as + countQuitEmit bs := by
  simp [countQuitEmit, List.filter_append]

/-- The stdin loop never calls disconnect: every action it records is an
emission. -/
theorem runLoop_no_disconnect (emitOk : Nat → Bool) (k : Nat) (inputs : List String) :
    countDisconnect (runLoop emitOk k inputs).1 = 0 := by
  induction inputs generalizing k with
  | nil => rfl
  | cons line rest ih =>
    simp only [runLoop]
    split_ifs <;> simp [ih]

/-- Every character the username check admits occupies one UTF-8 byte, so the
byte length of an accepted string equals its character count. -/
theorem rustLen_of_allowed (l : List Char) (h : ∀ c ∈ l, allowedChar c = true) :
    (l.map (fun c => charUtf8Size c.toNat)).sum = l.length := by
  induction l with
  | nil => simp
  | cons c cs ih =>
    have hc : charUtf8Size c.toNat = 1 := by
      have hall := h c (by simp)
      simp only [allowedChar, isAsciiAlphanumeric, Bool.or_eq_true, Bool.and_eq_true,
        decide_eq_true_eq] at hall
      unfold charUtf8Size
      rcases hall with (((h1 | h1) | h1) | h1) | h1
      · rw [if_pos (by omega)]
      · rw [if_pos (by omega)]
      · rw [if_pos (by omega)]
      · subst h1; rfl
      · subst h1; rfl
    simp only [List.map_cons, List.sum_cons, List.length_cons, hc, ih (fun c hm => h c (by simp [hm]))]
    omega

/-! ### Claim theorems -/

/-- C9 (confirmed): the username validator accepts a string iff its length is
between 3 and 20 inclusive and every character is an ASCII letter, ASCII
digit, underscore or hyphen; a rejected answer is recovered by re-prompting
(the loop moves on to the next answer instead of failing). -/
theorem username_validator_spec :
    (∀ u : String, usernameOk u = true ↔
      3 ≤ u.data.length ∧ u.data.length ≤ 20 ∧ ∀ c ∈ u.data, allowedChar c = true) ∧
    (∀ (s : String) (rest : List String), usernameOk (rustTrim s) = false →
      usernameLoop (s :: rest) = usernameLoop rest) := by
  constructor
  · intro u
    constructor
    · intro h
      simp only [usernameOk, Bool.and_eq_true, decide_eq_true_eq, List.all_eq_true,
        Bool.not_eq_true', List.isEmpty_eq_false] at h
      obtain ⟨⟨⟨hne, h3⟩, h20⟩, hall⟩ := h
      have hs := rustLen_of_allowed u.data hall
      unfold rustLen at h3 h20
      rw [hs] at h3 h20
      exact ⟨h3, h20, hall⟩
    · rintro ⟨h3, h20, hall⟩
      have hs := rustLen_of_allowed u.data hall
      simp only [usernameOk, Bool.and_eq_true, decide_eq_true_eq, List.all_eq_true,
        Bool.not_eq_true', List.isEmpty_eq_false]
      refine ⟨⟨⟨?_, ?_⟩, ?_⟩, hall⟩
      · intro hnil
        rw [hnil] at h3
        simp at h3
      · unfold rustLen
        omega
      · unfold rustLen
        omega
  · intro s rest h
    simp [usernameLoop, h]

/-- Witness for C9: the answer with an at sign is rejected and re-prompted;
a conforming name is accepted. -/
theorem username_validator_spec_witness :
    usernameOk (rustTrim "ab@cd") = false ∧
    usernameLoop ["ab@cd", "alice"] = usernameLoop ["alice"] :=
  ⟨by decide, username_validator_spec.2 "ab@cd" ["alice"] (by decide)⟩

/-- C2 (confirmed): for every payload that deserializes into `WelcomePayload`,
the welcome handler surfaces the confirmation notification carrying the
assigned username and `connectedUsers` in the given order ("—" when empty),
sets the reported roster to exactly `connectedUsers`, and sets the reported
connection state to connected. -/
theorem welcome_confirmation (v : Json) (u : String) (l : List String) (es : List InEvent)
    (h : parseWelcome v = some ⟨u, l⟩) :
    welcomeHandler (some v)
      = ["✅ Conexión exitosa como \"" ++ u ++ "\". Usuarios conectados: "
          ++ (if l.isEmpty then "—" else String.intercalate ", " l)] ∧
    rosterAfter (es ++ [.welcome (some v)]) = some l ∧
    connectedAfter (es ++ [.welcome (some v)]) = true := by
  refine ⟨?_, ?_, ?_⟩
  · simp [welcomeHandler, h]
  · simp [rosterAfter, List.foldl_append, rosterStep, h]
  · simp [connectedAfter, List.foldl_append, connectedStep, h]

/-- Witness for C2: the spec's example payload
`{username: "alice", connectedUsers: ["bob", "carol"]}`. -/
theorem welcome_confirmation_witness :
    parseWelcome (Json.obj [("username", .str "alice"),
        ("connectedUsers", .arr [.str "bob", .str "carol"])])
      = some ⟨"alice", ["bob", "carol"]⟩ ∧
    (welcomeHandler (some (Json.obj [("username", .str "alice"),
        ("connectedUsers", .arr [.str "bob", .str "carol"])]))
      = ["✅ Conexión exitosa como \"alice\". Usuarios conectados: bob, carol"] ∧
    rosterAfter ([] ++ [.welcome (some (Json.obj [("username", .str "alice"),
        ("connectedUsers", .arr [.str "bob", .str "carol"])]))]) = some ["bob", "carol"] ∧
    connectedAfter ([] ++ [.welcome (some (Json.obj [("username", .str "alice"),
        ("connectedUsers", .arr [.str "bob", .str "carol"])]))]) = true) :=
  ⟨by rfl,
   welcome_confirmation (Json.obj [("username", .str "alice"),
     ("connectedUsers", .arr [.str "bob", .str "carol"])]) "alice" ["bob", "carol"] [] (by rfl)⟩

/-- C6 counterexample: a `users:list` payload whose `users` field is an array
containing a non-string entry is malformed in the spec's sense ("users: list
of strings"), yet the handler renders a roster line (the entry silently
dropped by `filter_map`) instead of the claimed "unexpected payload" notice,
and the reported roster changes to the empty list. -/
theorem users_list_nonstring_entries_cex :
    usersListHandler (some (Json.obj [("users", Json.arr [Json.num 1])]))
      = ["👥 Conectados: —"] ∧
    usersListHandler (some (Json.obj [("users", Json.arr [Json.num 1])]))
      ≠ ["(users:list) payload inesperado"] ∧
    rosterAfter [.usersList (some (Json.obj [("users", Json.arr [Json.num 1])]))]
      = some [] :=
  ⟨by rfl, by decide, by rfl⟩

/-- C6 (corrected): for every `users:list` event whose `users` field is an
array, the reported roster is replaced wholesale with the array's string
entries (non-string entries silently dropped, no merging with earlier state)
and rendered with "—" when empty; the "unexpected payload" notice is rendered,
with no roster change, exactly when `users` is missing or not an array; a
payload that is not JSON renders nothing.  After two consecutive `users:list`
events with array-valued `users` fields the reported roster is exactly the
second list. -/
theorem users_list_replaces_roster :
    (∀ (v : Json) (arr : List Json) (es : List InEvent),
      (v.get "users").bind Json.as_array = some arr →
      usersListHandler (some v)
        = ["👥 Conectados: " ++ (if (arr.filterMap Json.as_str).isEmpty then "—"
            else String.intercalate ", " (arr.filterMap Json.as_str))] ∧
      rosterAfter (es ++ [.usersList (some v)]) = some (arr.filterMap Json.as_str)) ∧
    (∀ (v : Json) (es : List InEvent),
      (v.get "users").bind Json.as_array = none →
      usersListHandler (some v) = ["(users:list) payload inesperado"] ∧
      rosterAfter (es ++ [.usersList (some v)]) = rosterAfter es) ∧
    usersListHandler none = [] ∧
    (∀ (v1 v2 : Json) (a1 a2 : List Json) (es : List InEvent),
      (v1.get "users").bind Json.as_array = some a1 →
      (v2.get "users").bind Json.as_array = some a2 →
      rosterAfter (es ++ [.usersList (some v1), .usersList (some v2)])
        = some (a2.filterMap Json.as_str)) := by
  refine ⟨?_, ?_, rfl, ?_⟩
  · intro v arr es h
    exact ⟨by simp [usersListHandler, h],
           by simp [rosterAfter, List.foldl_append, rosterStep, h]⟩
  · intro v es h
    exact ⟨by simp [usersListHandler, h],
           by simp [rosterAfter, List.foldl_append, rosterStep, h]⟩
  · intro v1 v2 a1 a2 es h1 h2
    simp [rosterAfter, List.foldl_append, rosterStep, h1, h2]

/-- Witness for C6 (amended): the spec's example payload `{users: []}` yields
the empty-set placeholder and an empty reported roster. -/
theorem users_list_replaces_roster_witness :
    ((Json.obj [("users", Json.arr [])]).get "users").bind Json.as_array = some [] ∧
    (usersListHandler (some (Json.obj [("users", Json.arr [])]))
        = ["👥 Conectados: —"] ∧
     rosterAfter ([] ++ [.usersList (some (Json.obj [("users", Json.arr [])]))])
        = some []) :=
  ⟨by rfl, users_list_replaces_roster.1 (Json.obj [("users", Json.arr [])]) [] [] (by rfl)⟩

/-- C7 (confirmed): a `chat:public` payload carrying no string `username` and
no string `text` is rendered with the "¿?" and empty-string placeholders, with
no error and no change to the reported roster or connection state. -/
theorem chat_public_malformed_defaults (v : Json) (es : List InEvent)
    (hu : (v.get "username").bind Json.as_str = none)
    (ht : (v.get "text").bind Json.as_str = none) :
    chatPublicHandler (some v)
      = ["[" ++ chatTimestamp (((v.get "at").bind Json.as_i64).getD 0) ++ "] " ++ "¿?"
          ++ ": " ++ ""] ∧
    rosterAfter (es ++ [.chatPublic (some v)]) = rosterAfter es ∧
    connectedAfter (es ++ [.chatPublic (some v)]) = connectedAfter es := by
  refine ⟨?_, ?_, ?_⟩
  · simp [chatPublicHandler, hu, ht]
  · simp [rosterAfter, List.foldl_append, rosterStep]
  · simp [connectedAfter, List.foldl_append, connectedStep]

/-- Witness for C7: the empty JSON object as payload renders
`[--:--] ¿?: ` and leaves the reported state unchanged. -/
theorem chat_public_malformed_defaults_witness :
    ((Json.obj []).get "username").bind Json.as_str = none ∧
    (chatPublicHandler (some (Json.obj [])) = ["[--:--] ¿?: "] ∧
     rosterAfter ([] ++ [.chatPublic (some (Json.obj []))]) = rosterAfter [] ∧
     connectedAfter ([] ++ [.chatPublic (some (Json.obj []))]) = connectedAfter []) :=
  ⟨by rfl, chat_public_malformed_defaults (Json.obj []) [] (by rfl) (by rfl)⟩

/-- C1 counterexample: the code renders the timestamp with a timezone-naive
(UTC) conversion, so in any environment whose local wall clock is offset from
UTC (here +60 minutes) the rendered value for `sentAtEpochMillis =
1700000000000` differs from the local time-of-day the claim requires: the code
prints 22:13 (UTC) while local time there is 23:13. -/
theorem chat_timestamp_not_local_cex :
    chatTimestamp 1700000000000 = "22:13" ∧
    specLocalHHMM 60 1700000000000 = "23:13" ∧
    chatTimestamp 1700000000000 ≠ specLocalHHMM 60 1700000000000 :=
  ⟨by decide, by decide, by decide⟩

/-- C1 (corrected): the rendered timestamp of a positive `sentAtEpochMillis`
whose truncated seconds value lies inside chrono's representable range is the
UTC (not local) hour and minute obtained by truncating the milliseconds to
whole seconds, zero-padded two digits each; a positive value is never below
that range, and beyond it the code renders the 00:00 epoch fallback — so
every positive value is covered by these two cases; a non-positive value
renders "--:--"; a payload without an integral `at` field defaults to 0 and
renders "--:--"; the fixed instant 1700000000000 renders its UTC time-of-day
22:13. -/
theorem chat_timestamp_is_utc :
    (∀ atMs : Int, 0 < atMs → chronoMinSecs ≤ Int.tdiv atMs 1000 →
      Int.tdiv atMs 1000 ≤ chronoMaxSecs → chatTimestamp atMs = utcHHMM atMs) ∧
    (∀ atMs : Int, 0 < atMs → chronoMinSecs ≤ Int.tdiv atMs 1000) ∧
    (∀ atMs : Int, 0 < atMs → chronoMaxSecs < Int.tdiv atMs 1000 →
      chatTimestamp atMs = "00:00") ∧
    (∀ atMs : Int, atMs ≤ 0 → chatTimestamp atMs = "--:--") ∧
    chatTimestamp 1700000000000 = "22:13" ∧
    (∀ v : Json, (v.get "at").bind Json.as_i64 = none →
      chatPublicHandler (some v)
        = ["[" ++ "--:--" ++ "] " ++ ((v.get "username").bind Json.as_str).getD "¿?"
            ++ ": " ++ ((v.get "text").bind Json.as_str).getD ""]) := by
  refine ⟨?_, ?_, ?_, ?_, by decide, ?_⟩
  · intro atMs h1 h2 h3
    simp [chatTimestamp, fromTimestampOpt, chronoTimeOfDay, utcHHMM, h1, h2, h3]
  · intro atMs h1
    exact le_trans (by decide) (Int.tdiv_nonneg h1.le (by norm_num))
  · intro atMs h1 h3
    unfold chatTimestamp fromTimestampOpt
    rw [if_pos h1, if_neg (fun hc => absurd hc.2 (not_le.mpr h3))]
    rfl
  · intro atMs h
    unfold chatTimestamp
    rw [if_neg (by omega)]
  · intro v h
    simp [chatPublicHandler, h, chatTimestamp]

/-- Witness for C1 (amended): the fixed instant, in range and positive,
renders its UTC hour and minute. -/
theorem chat_timestamp_is_utc_witness :
    (0 : Int) < 1700000000000 ∧
    chatTimestamp 1700000000000 = utcHHMM 1700000000000 :=
  ⟨by decide, chat_timestamp_is_utc.1 1700000000000 (by decide) (by decide) (by decide)⟩

/-- C10 (confirmed): a `chat:public` payload whose `at` field holds a
positive 64-bit integer so large that dividing it by 1000 exceeds the
range the chrono library represents makes `from_timestamp_opt` fail; the
handler falls back to the epoch instant and renders 00:00 instead of
panicking. -/
theorem chat_timestamp_overflow_fallback (atMs : Int)
    (h1 : 0 < atMs) (h2 : atMs < 2 ^ 63) (h3 : chronoMaxSecs < Int.tdiv atMs 1000) :
    chatPublicHandler (some (Json.obj [("at", Json.num atMs)])) = ["[00:00] ¿?: "] ∧
    chatTimestamp atMs = "00:00" := by
  have hts : chatTimestamp atMs = "00:00" := by
    unfold chatTimestamp fromTimestampOpt
    rw [if_pos h1, if_neg (fun hc => absurd hc.2 (not_le.mpr h3))]
    rfl
  have hi : Json.as_i64 (Json.num atMs) = some atMs := by
    simp only [Json.as_i64]
    rw [if_pos ⟨le_trans (by norm_num) h1.le, h2⟩]
  refine ⟨?_, hts⟩
  simp [chatPublicHandler, Json.get, List.lookup, hi, hts]

/-- Witness for C10: one quintillion milliseconds is positive, fits in an
`i64`, and its seconds value exceeds chrono's maximum. -/
theorem chat_timestamp_overflow_fallback_witness :
    (0 : Int) < 1000000000000000000 ∧
    (chatPublicHandler (some (Json.obj [("at", Json.num 1000000000000000000)]))
        = ["[00:00] ¿?: "] ∧
     chatTimestamp 1000000000000000000 = "00:00") :=
  ⟨by decide,
   chat_timestamp_overflow_fallback 1000000000000000000 (by decide) (by decide) (by decide)⟩

/-- C5 (confirmed): the transport-level connect handler only prints the
connected notification (no emission, no reported-state change), and the first
transport action of the session — performed right after the connection is
established — is the `hello` emission carrying the chosen username. -/
theorem connect_triggers_hello :
    (∀ p : Option Json, connectHandler p
      = ["→ Conexión TCP/WS establecida. Enviando handshake…"]) ∧
    (∀ (u : String) (emitOk : Nat → Bool) (inputs : List String),
      (mainAfterConnect u emitOk inputs).1.head?
        = some (.emit "hello" (.obj [("username", .str u)]))) ∧
    (∀ (p : Option Json) (es : List InEvent),
      rosterAfter (es ++ [.connect p]) = rosterAfter es ∧
      connectedAfter (es ++ [.connect p]) = connectedAfter es) := by
  refine ⟨fun _ => rfl, ?_, ?_⟩
  · intro u emitOk inputs
    unfold mainAfterConnect
    cases h : emitOk 0
    · simp [h]
    · rcases hr : (runLoop emitOk 1 inputs).2 <;> simp [h, hr]
  · intro p es
    exact ⟨by simp [rosterAfter, List.foldl_append, rosterStep],
           by simp [connectedAfter, List.foldl_append, connectedStep]⟩

/-- C3 counterexample: a session in which the connection and the hello
emission succeed but the first chat emission fails ends with an error exit
and zero disconnect calls, although the claim demands exactly one disconnect
on every exit path after a connection was established. -/
theorem disconnect_skipped_on_emit_error_cex :
    (mainAfterConnect "alice" (fun k => k == 0) ["hola"]).2 = .errExit ∧
    countDisconnect (mainAfterConnect "alice" (fun k => k == 0) ["hola"]).1 = 0 :=
  ⟨by rfl, by rfl⟩

/-- C3 (corrected): on the normal quit exit path the transport is released by
exactly one disconnect call, but on an exit caused by a transport write error
while emitting (the `?` operator propagates the error out of `main` before
the cleanup block) disconnect is never called; process interrupts are not
handled at all. -/
theorem disconnect_on_exit_paths (u : String) (emitOk : Nat → Bool) (inputs : List String) :
    ((mainAfterConnect u emitOk inputs).2 = .okExit →
      countDisconnect (mainAfterConnect u emitOk inputs).1 = 1) ∧
    ((mainAfterConnect u emitOk inputs).2 = .errExit →
      countDisconnect (mainAfterConnect u emitOk inputs).1 = 0) := by
  unfold mainAfterConnect
  cases h : emitOk 0
  · simp [h]
  · rcases hr : (runLoop emitOk 1 inputs).2 <;>
      simp [h, hr, runLoop_no_disconnect]

/-- Witness for C3 (amended): a session quitting normally performs exactly
one disconnect. -/
theorem disconnect_on_exit_paths_witness :
    (mainAfterConnect "alice" (fun _ => true) ["/quitar"]).2 = .okExit ∧
    countDisconnect (mainAfterConnect "alice" (fun _ => true) ["/quitar"]).1 = 1 :=
  ⟨by rfl, (disconnect_on_exit_paths "alice" (fun _ => true) ["/quitar"]).1 (by rfl)⟩

/-- When every emission succeeds and some input line trims to the quit
trigger, the stdin loop's trace is a prefix free of quit emissions and
disconnects followed by exactly the quit emission, and the loop exits through
the quit break. -/
theorem runLoop_quit (emitOk : Nat → Bool) (hok : ∀ n, emitOk n = true)
    (k : Nat) (inputs : List String) (hq : "/quitar" ∈ inputs.map rustTrim) :
    ∃ pre, (runLoop emitOk k inputs).1 = pre ++ [Action.emit "command:quit" (.obj [])] ∧
      countQuitEmit pre = 0 ∧ countDisconnect pre = 0 ∧
      (runLoop emitOk k inputs).2 = .quit := by
  induction inputs generalizing k with
  | nil => simp at hq
  | cons line rest ih =>
    simp only [List.map_cons, List.mem_cons] at hq
    by_cases h1 : rustTrim line = ""
    · have hrest : "/quitar" ∈ rest.map rustTrim := by
        rcases hq with hq | hq
        · rw [h1] at hq
          simp at hq
        · exact hq
      obtain ⟨pre, hp1, hp2, hp3, hp4⟩ := ih k hrest
      exact ⟨pre, by simp only [runLoop, if_pos h1]; exact ⟨hp1, hp2, hp3, hp4⟩⟩
    · by_cases h2 : rustTrim line = "/listar"
      · have hrest : "/quitar" ∈ rest.map rustTrim := by
          rcases hq with hq | hq
          · rw [h2] at hq
            simp at hq
          · exact hq
        obtain ⟨pre, hp1, hp2, hp3, hp4⟩ := ih (k + 1) hrest
        refine ⟨Action.emit "command:list" (.obj []) :: pre, ?_, ?_, ?_, ?_⟩ <;>
          simp [runLoop, h1, h2, hok, hp1, hp2, hp3, hp4]
      · by_cases h3 : rustTrim line = "/quitar"
        · refine ⟨[], ?_, rfl, rfl, ?_⟩ <;>
            simp [runLoop, h1, h2, h3, hok]
        · have hrest : "/quitar" ∈ rest.map rustTrim := by
            rcases hq with hq | hq
            · exact absurd hq.symm h3
            · exact hq
          obtain ⟨pre, hp1, hp2, hp3, hp4⟩ := ih (k + 1) hrest
          refine ⟨Action.emit "chat:public" (.obj [("text", .str (rustTrim line))]) :: pre,
            ?_, ?_, ?_, ?_⟩ <;>
            simp [runLoop, h1, h2, h3, hok, hp1, hp2, hp3, hp4]

/-- C4 (confirmed): in every session whose transport accepts the emissions
and in which some operator line trims to the quit trigger, the client's trace
contains exactly one `command:quit` emission, immediately followed by exactly
one disconnect call as the final action, and the session ends cleanly — this
holds whatever inbound events occurred, in particular when no `welcome` was
ever received. -/
theorem quit_emits_then_disconnects (u : String) (emitOk : Nat → Bool)
    (inputs : List String) (hok : ∀ n, emitOk n = true)
    (hq : "/quitar" ∈ inputs.map rustTrim) :
    ∃ pre, (mainAfterConnect u emitOk inputs).1
        = pre ++ [Action.emit "command:quit" (.obj []), Action.disconnect] ∧
      countQuitEmit pre = 0 ∧ countDisconnect pre = 0 ∧
      countQuitEmit (mainAfterConnect u emitOk inputs).1 = 1 ∧
      countDisconnect (mainAfterConnect u emitOk inputs).1 = 1 ∧
      (mainAfterConnect u emitOk inputs).2 = .okExit := by
  obtain ⟨pre, hp1, hp2, hp3, hp4⟩ := runLoop_quit emitOk hok 1 inputs hq
  refine ⟨Action.emit "hello" (.obj [("username", .str u)]) :: pre, ?_, ?_, ?_, ?_, ?_, ?_⟩ <;>
    simp [mainAfterConnect, hok, hp1, hp2, hp3, hp4]

/-- Witness for C4: the session whose only input line is the quit trigger. -/
theorem quit_emits_then_disconnects_witness :
    "/quitar" ∈ (["/quitar"].map rustTrim) ∧
    (∃ pre, (mainAfterConnect "alice" (fun _ => true) ["/quitar"]).1
        = pre ++ [Action.emit "command:quit" (.obj []), Action.disconnect] ∧
      countQuitEmit pre = 0 ∧ countDisconnect pre = 0 ∧
      countQuitEmit (mainAfterConnect "alice" (fun _ => true) ["/quitar"]).1 = 1 ∧
      countDisconnect (mainAfterConnect "alice" (fun _ => true) ["/quitar"]).1 = 1 ∧
      (mainAfterConnect "alice" (fun _ => true) ["/quitar"]).2 = .okExit) :=
  ⟨by decide,
   quit_emits_then_disconnects "alice" (fun _ => true) ["/quitar"]
     (fun _ => rfl) (by decide)⟩

/-- C8 counterexample: the operator line with surrounding whitespace is
classified as chat, but the emitted `chat:public` payload carries the trimmed
text, not the line verbatim. -/
theorem chat_text_trimmed_cex :
    (runLoop (fun _ => true) 1 [" hola "]).1
      = [Action.emit "chat:public" (Json.obj [("text", Json.str "hola")])] ∧
    rustTrim " hola " ≠ " hola " :=
  ⟨by rfl, by decide⟩

/-- C8 (corrected): each operator line is classified after trimming
surrounding whitespace: an all-whitespace line is a no-op; the literal
`/listar` emits `command:list {}`; the literal `/quitar` emits
`command:quit {}` and ends the loop; every other non-empty line is forwarded
as a public chat message with the trimmed (not verbatim) text as the
`chat:public` payload. -/
theorem input_classification (k : Nat) (line : String) (rest : List String) :
    (rustTrim line = "" →
      runLoop (fun _ => true) k (line :: rest) = runLoop (fun _ => true) k rest) ∧
    (rustTrim line = "/listar" →
      runLoop (fun _ => true) k (line :: rest)
        = (Action.emit "command:list" (.obj []) :: (runLoop (fun _ => true) (k + 1) rest).1,
           (runLoop (fun _ => true) (k + 1) rest).2)) ∧
    (rustTrim line = "/quitar" →
      runLoop (fun _ => true) k (line :: rest)
        = ([Action.emit "command:quit" (.obj [])], .quit)) ∧
    (rustTrim line ≠ "" → rustTrim line ≠ "/listar" → rustTrim line ≠ "/quitar" →
      runLoop (fun _ => true) k (line :: rest)
        = (Action.emit "chat:public" (.obj [("text", .str (rustTrim line))])
            :: (runLoop (fun _ => true) (k + 1) rest).1,
           (runLoop (fun _ => true) (k + 1) rest).2)) := by
  refine ⟨fun h => ?_, fun h => ?_, fun h => ?_, fun h1 h2 h3 => ?_⟩
  · simp [runLoop, h]
  · simp [runLoop, h]
  · simp [runLoop, h]
  · simp [runLoop, h1, h2, h3]

/-- Witness for C8 (amended): the whitespace-padded chat line is forwarded
with its trimmed text. -/
theorem input_classification_witness :
    rustTrim " hola " ≠ "" ∧
    runLoop (fun _ => true) 1 (" hola " :: ([] : List String))
      = (Action.emit "chat:public" (.obj [("text", .str (rustTrim " hola "))])
          :: (runLoop (fun _ => true) 2 []).1,
         (runLoop (fun _ => true) 2 []).2) :=
  ⟨by decide, (input_classification 1 " hola " []).2.2.2 (by decide) (by decide) (by decide)⟩

end ChatClient
